import Mathlib

/-!  Verification of the cn-infra child-process supervisor core
(`process/process_impl.go`): the Terminator (`stopProcess`,
`forceStopProcess`, `delete`), the Liveness Prober (`isAlive`) and the
Watchdog loop (`watch`), shallowly embedded as pure Lean functions.

OS interactions (signal delivery, waiting on exit, the status source) are
passed in as explicit outcome parameters, so every function is pure and
executable.  Go runtime panics (nil pointer dereference, close of a closed
channel) are modelled by an explicit `GoResult` outcome. -/

namespace CnInfra

/-- Step helper for Go `strings.Contains`: does the list `pre` start the
list `s` (character-wise equality). -/
def startsWithList : List Char → List Char → Bool
  | [], _ => true
  | _ :: _, [] => false
  | a :: as, b :: bs => a == b && startsWithList as bs

/-- Go `strings.Contains` over char lists: some suffix of the second list
starts with `sub`. -/
def hasSubList (sub : List Char) : List Char → Bool
  | [] => startsWithList sub []
  | c :: rest => startsWithList sub (c :: rest) || hasSubList sub rest

/-- Go `strings.Contains s sub`. -/
def strContains (s sub : String) : Bool := hasSubList sub.toList s.toList

/-- Modelled from the spec: `status.ProcessStatus` lives in the status
package, which is not among the sampled sources.  The spec describes it as
a coarse run-state reading with an empty reading as fallback trigger; the
zero value of the type (the value of `var last status.ProcessStatus` before
the first tick) is the empty string. -/
abbrev ProcessStatus := String

namespace status

/-- Modelled from the spec: the `Terminated` member of the status
enumeration `{Run, Sleep, Zombie, Terminated, Unavailable}`. -/
def Terminated : ProcessStatus := "terminated"

/-- Modelled from the spec: the `Unavailable` member, the fallback for an
empty status reading. -/
def Unavailable : ProcessStatus := "unavailable"

/-- Modelled from the spec: the `Zombie` member. -/
def Zombie : ProcessStatus := "zombie"

/-- Modelled from the spec: the `Run` member. -/
def Running : ProcessStatus := "running"

end status

/-- Source constant (`process_impl.go` line 28): the sentinel meaning the
process should always be restarted.  `numRestarts` is an `int32` in Go; all
values reachable in the claims stay far from the `int32` bounds, so `Int`
is a faithful model. -/
def infiniteRestarts : Int := -1

/-- Modelled from the spec: the error substring meaning "no such process",
defined outside the sampled sources and used by the liveness probe. -/
def noSuchProcess : String := "no such process"

/-- Modelled from the spec: the error substring meaning "process already
finished", defined outside the sampled sources and used by the liveness
probe. -/
def alreadyFinished : String := "process already finished"

/-- Outcome of running a piece of Go code: a normal result, or a runtime
panic with its message (nil pointer dereference, close of closed channel). -/
inductive GoResult (α : Type) where
  | ok : α → GoResult α
  | panicked : String → GoResult α
deriving DecidableEq

/-- The fields of the Go `Process` handle touched by the Terminator and the
Liveness Prober.  `process` models the `*os.Process` field by its pid,
`none` being the nil pointer; `startTime` models `time.Time` with `0` as
the zero value; `cancelChan` models the channel: `none` = nil channel,
`some false` = open, `some true` = closed. -/
structure Process where
  name : String
  process : Option Nat
  startTime : Nat
  cancelChan : Option Bool
deriving DecidableEq

/-- `stopProcess` (`process_impl.go` lines 60-71).  `sigtermErr` is the
outcome the OS gives the SIGTERM delivery (`none` = success); it is only
consulted when a process handle is present. -/
def stopProcess (p : Process) (sigtermErr : Option String) :
    Option String × Process :=
  match p.process with
  | none => (some "asked to stop non-existing process instance", p)
  | some _ =>
    match sigtermErr with
    | some e => (some ("process termination unsuccessful: " ++ e), p)
    | none => (none, { p with startTime := 0 })

/-- `forceStopProcess` (`process_impl.go` lines 73-87), exactly as written:
the guard on line 74 is `if p.process != nil`, so a PRESENT handle returns
the "non-existing process instance" error, and a nil handle falls through
to `p.process.Signal(syscall.SIGKILL)` on line 78, a method call on a nil
`*os.Process` whose body reads `p.Pid` — a nil pointer dereference panic.
Consequently the SIGKILL / Release outcomes (`sigkillErr`, `releaseErr`)
are never consulted: lines 78-86 are unreachable without panicking. -/
def forceStopProcess (p : Process) (sigkillErr releaseErr : Option String) :
    GoResult (Option String × Process) :=
  match p.process with
  | some _ => .ok (some "asked to force-stop non-existing process instance", p)
  | none =>
    -- p.process.Signal(syscall.SIGKILL) with p.process == nil
    let _ := sigkillErr
    let _ := releaseErr
    .panicked "runtime error: invalid memory address or nil pointer dereference"

/-- `isAlive` (`process_impl.go` lines 89-103).  `findErr` is the outcome
of `os.FindProcess` (`none` = success), `signalErr` the outcome of the
probing `Signal(0)` call (`none` = delivered without error). -/
def isAlive (p : Process) (findErr signalErr : Option String) : Bool :=
  match p.process with
  | none => false
  | some _ =>
    match findErr with
    | some _ => false
    | none =>
      match signalErr with
      | none => true
      | some e =>
        if strContains e noSuchProcess || strContains e alreadyFinished then
          false
        else
          -- error can be non-nil while the process still exists
          -- (e.g. alive but not owned by the caller)
          true

/-- The tail of `delete` (`process_impl.go` lines 118-121): close the
process watcher.  The guard only checks the channel against nil; closing an
already-closed Go channel panics. -/
def deleteClose (p : Process) : GoResult (Option String × Process) :=
  match p.cancelChan with
  | none => .ok (none, p)
  | some false => .ok (none, { p with cancelChan := some true })
  | some true => .panicked "close of closed channel"

/-- `delete` (`process_impl.go` lines 106-125).  `waitErr` is the outcome
of `p.Wait()` (defined outside the sampled sources; modelled from the spec
as a blocking wait for exit that can fail).  Note that in the fallback
branch the Go code shadows the graceful-stop error: the returned message
wraps only the force-stop error. -/
def delete (p : Process)
    (sigtermErr sigkillErr releaseErr waitErr : Option String) :
    GoResult (Option String × Process) :=
  match stopProcess p sigtermErr with
  | (some _, p1) =>
    -- warn and fall back to forceStopProcess
    match forceStopProcess p1 sigkillErr releaseErr with
    | .panicked m => .panicked m
    | .ok (some e2, p2) =>
      .ok (some ("failed to force-stop process " ++ p2.name ++ ": " ++ e2), p2)
    | .ok (none, p2) => deleteClose p2
  | (none, p1) =>
    match waitErr with
    | some e =>
      .ok (some ("error while waiting on process " ++ p1.name
            ++ " to complete: " ++ e), p1)
    | none => deleteClose p1

/-- Environment of one Watchdog tick: the result of the `isAlive` probe,
and the status-source reading `p.UpdateStatus(p.GetPid())` (a helper from
outside the sampled sources; modelled from the spec as an error plus a
possibly-empty state reading that is still usable when the error is
non-nil, matching the fall-through on lines 148-156). -/
structure TickInput where
  alive : Bool
  statusErr : Option String
  statusState : ProcessStatus
deriving DecidableEq

/-- Loop-local state of `watch`: `last` (line 135, zero value the empty
reading) and `numRestarts` (line 136). -/
structure WatchState where
  last : ProcessStatus
  numRestarts : Int
deriving DecidableEq

/-- Observable side effects of one tick: the value sent on the notification
channel if any, whether a relaunch goroutine was spawned, and whether the
zombie-reaping `Wait` was invoked. -/
structure TickEffects where
  notified : Option ProcessStatus
  restartSpawned : Bool
  reaped : Bool
deriving DecidableEq

/-- The observed-state computation at the top of the tick body
(`process_impl.go` lines 144-157): Terminated when the probe says dead;
otherwise the status-source error is only logged, an empty reading maps to
Unavailable, and any other reading is taken as is. -/
def computeObserved (t : TickInput) : ProcessStatus :=
  if t.alive = false then status.Terminated
  else if t.statusState = "" then status.Unavailable
  else t.statusState

/-- One iteration of the ticker case of `watch` (`process_impl.go` lines
143-183).  `hasNotif` models `p.GetNotification() != nil`, fixed for a
given handle.  Inside the changed branch: notify, then apply the restart
policy on Terminated (note line 171 decrements `numRestarts`
unconditionally once the branch on line 164 is taken), then reap zombies;
`last = current` runs on every tick (line 183). -/
def tick (hasNotif : Bool) (s : WatchState) (t : TickInput) :
    WatchState × TickEffects :=
  let current := computeObserved t
  if current = s.last then
    ({ s with last := current },
     { notified := none, restartSpawned := false, reaped := false })
  else
    let notified : Option ProcessStatus :=
      if hasNotif then some current else none
    let rd : Bool × Int :=
      if current = status.Terminated then
        if s.numRestarts > 0 ∨ s.numRestarts = infiniteRestarts then
          (true, s.numRestarts - 1)
        else
          (false, s.numRestarts)
      else
        (false, s.numRestarts)
    let reaped : Bool := decide (current = status.Zombie)
    ({ last := current, numRestarts := rd.2 },
     { notified := notified, restartSpawned := rd.1, reaped := reaped })

/-- The initialisation of the loop-local state of `watch`
(`process_impl.go` lines 135-139): `last` starts at the zero value and
`numRestarts` is copied from `p.options.restart` once, only when
`p.options` is non-nil. -/
def watchInit (optionsNil : Bool) (restartOpt : Int) : WatchState :=
  { last := "", numRestarts := if optionsNil then 0 else restartOpt }

/-- A run of the `watch` loop over a finite list of tick environments,
folding `tick` and collecting the per-tick effects. -/
def watchRun (hasNotif : Bool) (s : WatchState) :
    List TickInput → WatchState × List TickEffects
  | [] => (s, [])
  | t :: ts =>
    let r1 := tick hasNotif s t
    let r2 := watchRun hasNotif r1.1 ts
    (r2.1, r1.2 :: r2.2)

/-- A run of the `watch` loop in an environment that also records, for each
tick, the value the handle field `p.options.restart` holds at that moment
(an external mutation stream).  The loop body (lines 141-194) contains no
read of `p.options.restart`: only line 138, before the loop, reads it.  The
embedding therefore consumes the recorded values nowhere, mirroring that
data flow. -/
def watchRunMutated (hasNotif : Bool) (optionsNil : Bool) (restartOpt : Int)
    (ticks : List (TickInput × Int)) : WatchState × List TickEffects :=
  watchRun hasNotif (watchInit optionsNil restartOpt) (ticks.map Prod.fst)

/-- Tick environment: liveness probe reports dead. -/
def tDead : TickInput := { alive := false, statusErr := none, statusState := "" }

/-- Tick environment: alive with a Run reading. -/
def tRun : TickInput :=
  { alive := true, statusErr := none, statusState := status.Running }

/-- A handle with a live OS process reference and an open cancel channel. -/
def procLive : Process :=
  { name := "p", process := some 42, startTime := 7, cancelChan := some false }

/-- A handle with no OS process reference (nil `*os.Process`). -/
def procNil : Process :=
  { name := "q", process := none, startTime := 0, cancelChan := some false }

/-- The state `procLive` reaches after a fully successful `delete`:
start time cleared by the graceful stop, cancel channel closed. -/
def procLiveDeleted : Process :=
  { name := "p", process := some 42, startTime := 0, cancelChan := some true }

/-- Claim C1: the spec requires `stopForced` to fail with the
`NoProcessError` exactly when `osProcessRef` is nil and to signal, release
and clear the start time when a live handle is present, never dereferencing
a nil handle.  The code does the opposite: the guard on line 74 reads
`if p.process != nil`, so a present handle gets the "non-existing process
instance" error while an absent handle reaches a nil pointer dereference;
the kill/release/clear path is unreachable. -/
theorem forceStop_guard_inverted :
    ∀ (p : Process) (sigkillErr releaseErr : Option String),
      forceStopProcess p sigkillErr releaseErr =
        (if p.process.isSome then
          .ok (some "asked to force-stop non-existing process instance", p)
        else
          .panicked
            "runtime error: invalid memory address or nil pointer dereference") := by
  intro p k r
  cases h : p.process <;> simp [forceStopProcess, h]

/-- Claim C2: the spec says a restart budget of `-1` means restart
indefinitely, with the counter left unchanged on each restart.  Evaluating
the loop at budget `-1` over the observations dead, running, dead shows the
code decrements the counter to `-2` on the first Terminated transition and
spawns no relaunch on the second one: the unconditional `numRestarts--` on
line 171 contradicts the comment on line 27 ("the process should be always
restarted"). -/
theorem infinite_budget_restart_stops :
    watchRun true (watchInit false (-1)) [tDead, tRun, tDead] =
      ({ last := status.Terminated, numRestarts := -2 },
       [{ notified := some status.Terminated, restartSpawned := true,
          reaped := false },
        { notified := some status.Running, restartSpawned := false,
          reaped := false },
        { notified := some status.Terminated, restartSpawned := false,
          reaped := false }]) := by
  rfl

/-- One tick never drives a non-negative restart counter negative: the
decrement on line 171 only happens under the guard on line 164. -/
theorem tick_nonneg (hn : Bool) (s : WatchState) (t : TickInput)
    (h : 0 ≤ s.numRestarts) : 0 ≤ (tick hn s t).1.numRestarts := by
  simp only [tick]
  split
  · exact h
  · split
    · split
      · rename_i hc
        simp only [infiniteRestarts] at hc
        dsimp only
        omega
      · simpa using h
    · simpa using h

/-- A whole run never drives a non-negative restart counter negative. -/
theorem watchRun_nonneg (hn : Bool) (s : WatchState) (ts : List TickInput)
    (h : 0 ≤ s.numRestarts) : 0 ≤ (watchRun hn s ts).1.numRestarts := by
  induction ts generalizing s with
  | nil => simpa [watchRun] using h
  | cons t ts ih =>
    simp only [watchRun]
    exact ih _ (tick_nonneg hn s t h)

/-- Claim C3: with a finite non-negative budget, on a tick whose observed
state changes to Terminated the loop spawns exactly one relaunch and
decrements the counter by exactly one when the counter is positive, spawns
nothing and keeps the counter when it is zero; and over any run starting
from a non-negative counter the counter never becomes negative (every
intermediate state of a run is the final state of the truncated run, so the
second conjunct covers all intermediate states). -/
theorem finite_budget_restart_invariant :
    (∀ (hn : Bool) (s : WatchState) (t : TickInput),
        0 ≤ s.numRestarts →
        computeObserved t = status.Terminated →
        s.last ≠ status.Terminated →
        (0 < s.numRestarts →
            (tick hn s t).2.restartSpawned = true ∧
            (tick hn s t).1.numRestarts = s.numRestarts - 1) ∧
        (s.numRestarts = 0 →
            (tick hn s t).2.restartSpawned = false ∧
            (tick hn s t).1.numRestarts = 0)) ∧
    (∀ (hn : Bool) (s : WatchState) (ts : List TickInput),
        0 ≤ s.numRestarts →
        0 ≤ (watchRun hn s ts).1.numRestarts) := by
  constructor
  · intro hn s t h0 hobs hne
    simp only [tick, hobs, if_neg (Ne.symm hne), if_pos rfl]
    constructor
    · intro hpos
      rw [if_pos (Or.inl hpos)]
      simp
    · intro hz
      have hcond : ¬(s.numRestarts > 0 ∨ s.numRestarts = infiniteRestarts) := by
        simp only [infiniteRestarts, hz]
        omega
      rw [if_neg hcond]
      simp [hz]
  · exact watchRun_nonneg

/-- Witness for claim C3 at budget 2: a Terminated transition spawns one
relaunch and drops the counter from 2 to 1, and a concrete run keeps the
counter non-negative. -/
theorem finite_budget_restart_invariant_witness :
    ((0 : Int) ≤ 2 ∧ computeObserved tDead = status.Terminated ∧
      ("" : ProcessStatus) ≠ status.Terminated) ∧
    ((tick true { last := "", numRestarts := 2 } tDead).2.restartSpawned = true ∧
     (tick true { last := "", numRestarts := 2 } tDead).1.numRestarts = 2 - 1) ∧
    0 ≤ (watchRun true (watchInit false 2) [tDead, tRun, tDead]).1.numRestarts :=
  ⟨⟨by decide, by decide, by decide⟩,
   (finite_budget_restart_invariant.1 true { last := "", numRestarts := 2 } tDead
      (by decide) (by decide) (by decide)).1 (by decide),
   finite_budget_restart_invariant.2 true (watchInit false 2) [tDead, tRun, tDead]
      (by decide)⟩

/-- Full characterization of `delete`: with no process handle the forced
fallback panics on the nil dereference; with a handle, a failed graceful
stop yields the force-stop error return, a failed wait yields the wait
error return, and only the all-success path reaches the channel close. -/
theorem delete_eq (p : Process) (st sk rl w : Option String) :
    delete p st sk rl w =
      match p.process with
      | none =>
        .panicked "runtime error: invalid memory address or nil pointer dereference"
      | some _ =>
        match st with
        | some _ =>
          .ok (some ("failed to force-stop process " ++ p.name ++ ": "
                ++ "asked to force-stop non-existing process instance"), p)
        | none =>
          match w with
          | some e =>
            .ok (some ("error while waiting on process " ++ p.name
                  ++ " to complete: " ++ e), { p with startTime := 0 })
          | none => deleteClose { p with startTime := 0 } := by
  obtain ⟨n, pr, stt, cc⟩ := p
  cases pr <;> cases st <;> cases w <;> rfl

/-- Claim C4 counterexample: a concrete `delete` call on a handle with an
open (non-nil) cancel channel, whose graceful stop fails and whose forced
fallback also fails, returns its error with the cancel channel still open —
the close on lines 119-121 is skipped by the early return on line 110, so
`delete` does not close `cancelSignal` in all outcomes. -/
theorem delete_error_leaves_cancel_open :
    delete procLive (some "boom") none none none =
      .ok (some ("failed to force-stop process p: "
            ++ "asked to force-stop non-existing process instance"), procLive) ∧
    procLive.cancelChan = some false :=
  ⟨rfl, rfl⟩

/-- Claim C4 (amended): `delete` closes a non-nil open `cancelSignal` only
on the path that returns a nil error; both early error returns (both stops
failing, and the wait after a successful graceful stop failing) leave
`cancelSignal` open. -/
theorem delete_closes_cancel_only_on_success :
    ∀ (p : Process) (st sk rl w : Option String) (e : Option String)
      (q : Process),
      p.cancelChan = some false →
      delete p st sk rl w = .ok (e, q) →
      (e = none → q.cancelChan = some true) ∧
      (e ≠ none → q.cancelChan = some false) := by
  intro p st sk rl w e q hopen hdel
  rw [delete_eq] at hdel
  obtain ⟨n, pr, stt, cc⟩ := p
  simp only at hopen
  subst hopen
  cases pr with
  | none => simp at hdel
  | some pid =>
    cases st with
    | some e1 =>
      simp only [GoResult.ok.injEq, Prod.mk.injEq] at hdel
      obtain ⟨he, hq⟩ := hdel
      subst he
      subst hq
      simp
    | none =>
      cases w with
      | some ew =>
        simp only [GoResult.ok.injEq, Prod.mk.injEq] at hdel
        obtain ⟨he, hq⟩ := hdel
        subst he
        subst hq
        simp
      | none =>
        simp only [deleteClose, GoResult.ok.injEq, Prod.mk.injEq] at hdel
        obtain ⟨he, hq⟩ := hdel
        subst he
        subst hq
        simp

/-- Witness for claim C4 (amended): on the all-success path of a concrete
handle the returned state has the channel closed, and on the both-stops-fail
path it stays open. -/
theorem delete_closes_cancel_only_on_success_witness :
    (procLive.cancelChan = some false ∧
      delete procLive none none none none = .ok (none, procLiveDeleted)) ∧
    procLiveDeleted.cancelChan = some true :=
  ⟨⟨rfl, rfl⟩,
   (delete_closes_cancel_only_on_success procLive none none none none none
      procLiveDeleted rfl rfl).1 rfl⟩

/-- Claim C5 counterexample: calling `delete` twice on the same handle
panics.  The first call (signal and wait succeeding) closes the cancel
channel; `delete` never nils or reopens it, so the second call reaches
`close(p.cancelChan)` on an already-closed channel, which panics in Go.
The claimed idempotence does not hold. -/
theorem double_delete_close_panics :
    delete procLive none none none none = .ok (none, procLiveDeleted) ∧
    delete procLiveDeleted none none none none =
      .panicked "close of closed channel" :=
  ⟨rfl, rfl⟩

/-- Claim C5 (amended): the code does not make closing `cancelSignal`
idempotent.  The guard on line 119 only protects against a nil channel: any
`delete` that reaches the close with the channel already closed — e.g. the
second of two `delete` calls whose stop signal and wait both succeed —
panics with a close-of-closed-channel runtime error. -/
theorem delete_on_closed_cancel_panics :
    ∀ (p : Process) (sk rl : Option String),
      p.cancelChan = some true →
      p.process.isSome = true →
      delete p none sk rl none = .panicked "close of closed channel" := by
  intro p sk rl hclosed hsome
  rw [delete_eq]
  obtain ⟨n, pr, stt, cc⟩ := p
  simp only at hclosed
  subst hclosed
  cases pr with
  | none => simp at hsome
  | some pid => rfl

/-- Witness for claim C5 (amended): the already-deleted concrete handle
satisfies both hypotheses and its deletion panics. -/
theorem delete_on_closed_cancel_panics_witness :
    (procLiveDeleted.cancelChan = some true ∧
      procLiveDeleted.process.isSome = true) ∧
    delete procLiveDeleted none none none none =
      .panicked "close of closed channel" :=
  ⟨⟨rfl, rfl⟩, delete_on_closed_cancel_panics procLiveDeleted none none rfl rfl⟩

/-- Claim C6 counterexample: at a concrete input where the graceful stop
fails (SIGTERM outcome "boom") and the forced fallback fails too, the error
`delete` returns does not contain the graceful-stop failure text: the Go
code shadows `err` on line 109, so line 110 wraps only the force-stop
error and the claimed combined error reporting both failures is not
produced. -/
theorem combined_error_omits_graceful :
    delete procLive (some "boom") none none none =
      .ok (some ("failed to force-stop process p: "
            ++ "asked to force-stop non-existing process instance"),
        procLive) ∧
    strContains
        ("failed to force-stop process p: "
          ++ "asked to force-stop non-existing process instance")
        ("process termination unsuccessful: " ++ "boom") = false ∧
    strContains
        ("failed to force-stop process p: "
          ++ "asked to force-stop non-existing process instance")
        "asked to force-stop non-existing process instance" = true :=
  ⟨rfl, by decide, by decide⟩

/-- Claim C6 (amended): when the graceful stop fails and the forced
fallback also fails, `delete` returns a single error wrapping only the
force-stop failure; the graceful-stop failure is logged as a warning and
does not appear in the returned error, whose text is independent of the
graceful failure. -/
theorem delete_both_fail_error_is_forced_only :
    ∀ (p : Process) (e1 : String) (sk rl w : Option String),
      p.process.isSome = true →
      delete p (some e1) sk rl w =
        .ok (some ("failed to force-stop process " ++ p.name ++ ": "
              ++ "asked to force-stop non-existing process instance"), p) := by
  intro p e1 sk rl w hsome
  rw [delete_eq]
  obtain ⟨n, pr, stt, cc⟩ := p
  cases pr with
  | none => simp at hsome
  | some pid => rfl

/-- Witness for claim C6 (amended) at a concrete both-failures input. -/
theorem delete_both_fail_error_is_forced_only_witness :
    procLive.process.isSome = true ∧
    delete procLive (some "sigterm refused") none none none =
      .ok (some ("failed to force-stop process " ++ procLive.name ++ ": "
            ++ "asked to force-stop non-existing process instance"),
        procLive) :=
  ⟨rfl,
   delete_both_fail_error_is_forced_only procLive "sigterm refused" none none
     none rfl⟩

/-- Claim C7: on every tick with a configured notification sink, the
observed state is sent to the sink exactly when it differs from the
previous tick's observation, nothing is sent when it is equal, and `last`
is set to the current observation on every tick regardless of change. -/
theorem notify_iff_changed :
    ∀ (s : WatchState) (t : TickInput),
      ((tick true s t).2.notified = some (computeObserved t) ↔
        computeObserved t ≠ s.last) ∧
      ((tick true s t).2.notified = none ↔ computeObserved t = s.last) ∧
      (tick true s t).1.last = computeObserved t := by
  intro s t
  by_cases h : computeObserved t = s.last
  · simp [tick, h]
  · simp [tick, h]

/-- Claim C8: the per-tick observation is Terminated when the liveness
probe reports not-alive; otherwise an empty status reading maps to
Unavailable and any other reading is taken as is; the status-source error
is only logged — the observation does not depend on it. -/
theorem observed_state_computation :
    ∀ t : TickInput,
      (t.alive = false → computeObserved t = status.Terminated) ∧
      (t.alive = true → t.statusState = "" →
        computeObserved t = status.Unavailable) ∧
      (t.alive = true → t.statusState ≠ "" →
        computeObserved t = t.statusState) ∧
      (∀ e : Option String,
        computeObserved { t with statusErr := e } = computeObserved t) := by
  intro t
  refine ⟨?_, ?_, ?_, ?_⟩
  · intro h
    simp [computeObserved, h]
  · intro h1 h2
    simp [computeObserved, h1, h2]
  · intro h1 h2
    simp [computeObserved, h1, h2]
  · intro e
    simp [computeObserved]

/-- Witness for claim C8: concrete evaluations for the dead and the
running tick environments. -/
theorem observed_state_computation_witness :
    (tDead.alive = false ∧ computeObserved tDead = status.Terminated) ∧
    (tRun.alive = true ∧ tRun.statusState ≠ "" ∧
      computeObserved tRun = tRun.statusState) :=
  ⟨⟨rfl, (observed_state_computation tDead).1 rfl⟩,
   ⟨rfl, by decide, (observed_state_computation tRun).2.2.1 rfl (by decide)⟩⟩

/-- Claim C9: when `os.FindProcess` reports no error, the probe returns
false exactly when the handle is nil or the probing signal's error message
contains the "no such process" or "process already finished" indication;
every other signal outcome — a clean delivery or any other error text, e.g.
a permission error on a process owned by another principal — is alive. -/
theorem isAlive_false_iff :
    ∀ (p : Process) (findErr signalErr : Option String),
      findErr = none →
      (isAlive p findErr signalErr = false ↔
        (p.process = none ∨
          ∃ e, signalErr = some e ∧
            (strContains e noSuchProcess = true ∨
             strContains e alreadyFinished = true))) := by
  intro p fe se hfe
  subst hfe
  obtain ⟨n, pr, stt, cc⟩ := p
  cases pr with
  | none => simp [isAlive]
  | some pid =>
    cases se with
    | none => simp [isAlive]
    | some e =>
      simp only [isAlive]
      split
      · rename_i hc
        simp only [Bool.or_eq_true] at hc
        simp [hc]
      · rename_i hc
        simp only [Bool.or_eq_true] at hc
        simp [hc]

/-- Witness for claim C9: a live handle probed with a permission error is
classified alive — the error text contains neither indication. -/
theorem isAlive_false_iff_witness :
    ((none : Option String) = none) ∧
    ((isAlive procLive none (some "operation not permitted") = false) ↔
      (procLive.process = none ∨
        ∃ e, (some "operation not permitted" : Option String) = some e ∧
          (strContains e noSuchProcess = true ∨
           strContains e alreadyFinished = true))) ∧
    isAlive procLive none (some "operation not permitted") = true :=
  ⟨rfl, isAlive_false_iff procLive none (some "operation not permitted") rfl,
   by decide⟩

/-- Claim C10: `watch` copies the handle's configured restart budget into
the loop-local counter once at start and never reads or writes the handle
field afterwards, so two runs whose environments differ only in the values
the field holds during the run (the recorded mutation stream) produce
identical states and identical per-tick effects, restart decisions
included. -/
theorem budget_read_once_noninterference :
    ∀ (hn oNil : Bool) (b : Int) (tm1 tm2 : List (TickInput × Int)),
      tm1.map Prod.fst = tm2.map Prod.fst →
      watchRunMutated hn oNil b tm1 = watchRunMutated hn oNil b tm2 := by
  intro hn oNil b tm1 tm2 h
  simp [watchRunMutated, h]

/-- Witness for claim C10: two concrete mutation streams over the same
ticks give identical runs. -/
theorem budget_read_once_noninterference_witness :
    ([(tDead, 5), (tRun, 7)].map Prod.fst =
      [(tDead, 99), (tRun, -3)].map Prod.fst) ∧
    watchRunMutated true false 2 [(tDead, 5), (tRun, 7)] =
      watchRunMutated true false 2 [(tDead, 99), (tRun, -3)] :=
  ⟨rfl,
   budget_read_once_noninterference true false 2 [(tDead, 5), (tRun, 7)]
     [(tDead, 99), (tRun, -3)] rfl⟩

end CnInfra
